import Mathlib

/-!
Verification of the Infinity OS deterministic AI policy engine
(`src/packages/policy-engine/src/lib.rs`), a pure authorization gate
evaluated against its natural-language specification.

The Rust code is shallowly embedded: structs become Lean structures,
`u8`/`u32`/`u64` fields become `Nat` (only order comparisons occur, no
arithmetic, so no wrapping is possible), string slices become `String`,
the hardcoded `&[&str]` constants become `List String`, and the
`serde_json::Value` metadata field — opaque to the engine, which never
reads it — is carried as an `Option String` placeholder. JSON parsing at
the `validate_ai_action` boundary is delegated to serde in the Rust; its
outcome is modelled as an `Except String _` argument, mirroring the
`match` the Rust performs on the parse result.
-/

namespace InfinityPortal

/-- Mirrors the Rust struct `AiRequest`. -/
structure AiRequest where
  action : String
  target_resource : String
  risk_score : Nat
  requesting_module : String
  user_id : Option String
  organisation_id : Option String
  metadata : Option String
deriving DecidableEq, Repr

/-- Mirrors the Rust struct `PolicyDecision`. -/
structure PolicyDecision where
  permitted : Bool
  applied_rule : String
  reason : String
  iso_control : String
  timestamp_ms : Nat
  audit_required : Bool
deriving DecidableEq, Repr

/-- Mirrors the Rust struct `SecurityContext`. -/
structure SecurityContext where
  user_role : String
  mfa_verified : Bool
  session_age_seconds : Nat
  trusted_network : Bool
  failed_attempts_last_hour : Nat
deriving DecidableEq, Repr

/-- Mirrors the Rust constant `MAX_RISK_SCORE : u8 = 50`. -/
def MAX_RISK_SCORE : Nat := 50

/-- Mirrors the Rust constant `MAX_SESSION_AGE_SENSITIVE : u64 = 900`. -/
def MAX_SESSION_AGE_SENSITIVE : Nat := 900

/-- Mirrors the Rust constant `MAX_FAILED_ATTEMPTS : u32 = 5`. -/
def MAX_FAILED_ATTEMPTS : Nat := 5

/-- Mirrors the Rust constant `ALLOWED_READ_ACTIONS`. -/
def ALLOWED_READ_ACTIONS : List String :=
  ["read_public_cache",
   "read_user_preferences",
   "read_module_config",
   "read_notification_settings",
   "read_search_index",
   "read_file_metadata",
   "read_app_store_listings",
   "read_system_metrics"]

/-- Mirrors the Rust constant `ALLOWED_WRITE_ACTIONS`. -/
def ALLOWED_WRITE_ACTIONS : List String :=
  ["write_user_preferences",
   "write_notification",
   "write_search_index",
   "write_ai_suggestion",
   "write_analytics_event",
   "adjust_ui_theme",
   "prefetch_module",
   "cache_file_metadata"]

/-- Mirrors the Rust constant `ALLOWED_SYSTEM_ACTIONS`. -/
def ALLOWED_SYSTEM_ACTIONS : List String :=
  ["schedule_background_task",
   "clear_expired_cache",
   "compress_old_logs",
   "send_notification",
   "update_search_ranking"]

/-- Mirrors the Rust constant `BLOCKED_ACTIONS`. -/
def BLOCKED_ACTIONS : List String :=
  ["modify_kernel_scheduler",
   "modify_security_policy",
   "delete_user_data",
   "modify_user_permissions",
   "access_other_user_files",
   "modify_audit_logs",
   "disable_mfa",
   "modify_encryption_keys",
   "access_vault_secrets",
   "modify_rbac_roles",
   "execute_arbitrary_code",
   "modify_network_config",
   "access_admin_panel",
   "modify_compliance_settings"]

/-- Embedding of the Rust function `evaluate_policy` (lib.rs lines 188-331):
the pure rule cascade, translated branch by branch, including the exact
interpolated `reason` strings produced by the Rust `format!` calls. -/
def evaluate_policy (request : AiRequest) (context : SecurityContext)
    (timestamp_ms : Nat) : PolicyDecision :=
  -- RULE 1: Hard block
  if BLOCKED_ACTIONS.contains request.action then
    { permitted := false
      applied_rule := "HARD_BLOCK"
      reason := "Action '" ++ request.action ++
        "' is permanently blocked. AI cannot modify security-critical resources."
      iso_control := "A.9.4.1"
      timestamp_ms := timestamp_ms
      audit_required := true }
  -- RULE 2: Risk score threshold
  else if request.risk_score > MAX_RISK_SCORE then
    { permitted := false
      applied_rule := "RISK_SCORE_EXCEEDED"
      reason := "Risk score " ++ toString request.risk_score ++
        " exceeds maximum allowed " ++ toString MAX_RISK_SCORE ++
        ". Human review required."
      iso_control := "A.8.16"
      timestamp_ms := timestamp_ms
      audit_required := true }
  -- RULE 3: Account lockout check
  else if context.failed_attempts_last_hour ≥ MAX_FAILED_ATTEMPTS then
    { permitted := false
      applied_rule := "ACCOUNT_LOCKOUT"
      reason := "Too many failed attempts (" ++
        toString context.failed_attempts_last_hour ++ "/" ++
        toString MAX_FAILED_ATTEMPTS ++ "). Account temporarily locked."
      iso_control := "A.9.4.3"
      timestamp_ms := timestamp_ms
      audit_required := true }
  -- RULE 4: Session age check for sensitive operations
  else if (ALLOWED_WRITE_ACTIONS.contains request.action
        || ALLOWED_SYSTEM_ACTIONS.contains request.action)
      && context.session_age_seconds > MAX_SESSION_AGE_SENSITIVE then
    { permitted := false
      applied_rule := "SESSION_EXPIRED"
      reason := "Session age " ++ toString context.session_age_seconds ++
        "s exceeds " ++ toString MAX_SESSION_AGE_SENSITIVE ++
        "s limit for write operations. Re-authentication required."
      iso_control := "A.9.4.2"
      timestamp_ms := timestamp_ms
      audit_required := false }
  -- RULE 5: MFA required for system actions
  else if ALLOWED_SYSTEM_ACTIONS.contains request.action && !context.mfa_verified then
    { permitted := false
      applied_rule := "MFA_REQUIRED"
      reason := "System-level actions require MFA verification."
      iso_control := "A.9.4.2"
      timestamp_ms := timestamp_ms
      audit_required := false }
  -- RULE 6: Role-based action restrictions
  else if context.user_role == "user"
      && ALLOWED_SYSTEM_ACTIONS.contains request.action then
    { permitted := false
      applied_rule := "INSUFFICIENT_ROLE"
      reason := "Role '" ++ context.user_role ++
        "' cannot perform system actions. Requires 'power_user' or higher."
      iso_control := "A.9.2.3"
      timestamp_ms := timestamp_ms
      audit_required := false }
  -- RULE 7: Whitelist check — default deny
  else if !(ALLOWED_READ_ACTIONS.contains request.action
        || ALLOWED_WRITE_ACTIONS.contains request.action
        || ALLOWED_SYSTEM_ACTIONS.contains request.action) then
    { permitted := false
      applied_rule := "NOT_IN_WHITELIST"
      reason := "Action '" ++ request.action ++
        "' is not in the permitted actions whitelist. Default deny."
      iso_control := "A.9.4.1"
      timestamp_ms := timestamp_ms
      audit_required := true }
  -- PERMITTED — all rules passed
  else
    { permitted := true
      applied_rule := "WHITELIST_APPROVED"
      reason := "Action '" ++ request.action ++ "' approved. Risk score: " ++
        toString request.risk_score ++ "/" ++ toString MAX_RISK_SCORE ++ "."
      iso_control := "A.9.4.1"
      timestamp_ms := timestamp_ms
      audit_required := request.risk_score > 30 }

/-- Embedding of the Rust boundary function `validate_ai_action`
(lib.rs lines 148-185). The Rust parses two JSON strings with serde and
matches on the results; here the two parse outcomes arrive as
`Except String _` values, and the function performs the same matches,
building the same fail-closed `PARSE_ERROR` decisions (the Rust `format!`
interpolates the serde error into the reason). Serialization of the
resulting decision back to JSON is boundary glue and is not modelled. -/
def validate_ai_action (request_parse : Except String AiRequest)
    (context_parse : Except String SecurityContext)
    (timestamp_ms : Nat) : PolicyDecision :=
  match request_parse with
  | Except.error e =>
    { permitted := false
      applied_rule := "PARSE_ERROR"
      reason := "Invalid request JSON: " ++ e
      iso_control := "A.8.16"
      timestamp_ms := timestamp_ms
      audit_required := true }
  | Except.ok request =>
    match context_parse with
    | Except.error e =>
      { permitted := false
        applied_rule := "PARSE_ERROR"
        reason := "Invalid context JSON: " ++ e
        iso_control := "A.8.16"
        timestamp_ms := timestamp_ms
        audit_required := true }
    | Except.ok context => evaluate_policy request context timestamp_ms

/-- Mirrors the Rust local struct `DeletionDecision` inside
`validate_gdpr_deletion`. -/
structure DeletionDecision where
  permitted : Bool
  reason : String
  action : String
  iso_control : String
  gdpr_article : String
  timestamp_ms : Nat
deriving DecidableEq, Repr

/-- Embedding of the Rust function `validate_gdpr_deletion`
(lib.rs lines 340-379), up to the final JSON serialization (boundary
glue, not modelled): the decision record it builds. -/
def validate_gdpr_deletion (user_id requesting_user_id requester_role : String)
    (timestamp_ms : Nat) : DeletionDecision :=
  let permitted := user_id == requesting_user_id
    || requester_role == "org_admin"
    || requester_role == "super_admin"
  { permitted := permitted
    reason := if permitted then
        "GDPR deletion request validated. Proceed with crypto-shredding."
      else
        "Deletion request denied: requester is not the data subject or an authorised admin."
    action := if permitted then "DELETE_VAULT_KEY" else "DENY"
    iso_control := "A.8.3"
    gdpr_article := "Article 17 — Right to erasure"
    timestamp_ms := timestamp_ms }

/-! Spec-side transcription of the §4.1 rule table, for the priority and
characterisation claims: `ruleCond i` is the condition column of rule `i`
(1-7), `ruleOutcome i` its result/control/audit columns, with index 8 and
above standing for the default `WHITELIST_APPROVED` row. -/

/-- Condition column of rule `i` in the §4.1 table. -/
def ruleCond (i : Nat) (r : AiRequest) (c : SecurityContext) : Bool :=
  match i with
  | 1 => BLOCKED_ACTIONS.contains r.action
  | 2 => decide (r.risk_score > MAX_RISK_SCORE)
  | 3 => decide (c.failed_attempts_last_hour ≥ MAX_FAILED_ATTEMPTS)
  | 4 => (ALLOWED_WRITE_ACTIONS.contains r.action
          || ALLOWED_SYSTEM_ACTIONS.contains r.action)
         && decide (c.session_age_seconds > MAX_SESSION_AGE_SENSITIVE)
  | 5 => ALLOWED_SYSTEM_ACTIONS.contains r.action && !c.mfa_verified
  | 6 => c.user_role == "user" && ALLOWED_SYSTEM_ACTIONS.contains r.action
  | 7 => !(ALLOWED_READ_ACTIONS.contains r.action
          || ALLOWED_WRITE_ACTIONS.contains r.action
          || ALLOWED_SYSTEM_ACTIONS.contains r.action)
  | _ => false

/-- Result, control-reference and audit columns of rule `i` in the §4.1
table, as `(permitted, applied_rule, iso_control, audit_required)`. -/
def ruleOutcome (i : Nat) (r : AiRequest) : Bool × String × String × Bool :=
  match i with
  | 1 => (false, "HARD_BLOCK", "A.9.4.1", true)
  | 2 => (false, "RISK_SCORE_EXCEEDED", "A.8.16", true)
  | 3 => (false, "ACCOUNT_LOCKOUT", "A.9.4.3", true)
  | 4 => (false, "SESSION_EXPIRED", "A.9.4.2", false)
  | 5 => (false, "MFA_REQUIRED", "A.9.4.2", false)
  | 6 => (false, "INSUFFICIENT_ROLE", "A.9.2.3", false)
  | 7 => (false, "NOT_IN_WHITELIST", "A.9.4.1", true)
  | _ => (true, "WHITELIST_APPROVED", "A.9.4.1", decide (r.risk_score > 30))

/-! Concrete fixtures used by witnesses, taken from the spec's test
scenarios (§8). -/

/-- Scenario A request: `read_public_cache` at risk score 10. -/
def scenarioA_request : AiRequest :=
  ⟨"read_public_cache", "cache:public", 10, "com.infinity-os.shell",
   some "user-123", some "org-456", none⟩

/-- Scenario A context: plain user, no MFA, young session, no failures. -/
def scenarioA_context : SecurityContext :=
  ⟨"user", false, 300, true, 0⟩

/-- Scenario B request: the permanently blocked `modify_kernel_scheduler`
at risk score 0. -/
def scenarioB_request : AiRequest :=
  ⟨"modify_kernel_scheduler", "cache:public", 0, "com.infinity-os.shell",
   some "user-123", some "org-456", none⟩

/-- Scenario B context: super admin with MFA. -/
def scenarioB_context : SecurityContext :=
  ⟨"super_admin", true, 300, true, 0⟩

/-- An action string absent from all four classification sets, carried by
a request whose risk score exceeds the 50 threshold. -/
def unknownHighRisk_request : AiRequest :=
  ⟨"some_unknown_action", "cache:public", 75, "com.infinity-os.shell",
   none, none, none⟩

/-- The same unknown action at risk score 0. -/
def unknownLowRisk_request : AiRequest :=
  ⟨"some_unknown_action", "cache:public", 0, "com.infinity-os.shell",
   none, none, none⟩

/-- A request satisfying the conditions of rule 1 (blocked action) and
rule 2 (risk score above 50) simultaneously. -/
def twoRuleOverlap_request : AiRequest :=
  ⟨"modify_kernel_scheduler", "cache:public", 75, "com.infinity-os.shell",
   none, none, none⟩

/-- The Scenario A request with every policy-irrelevant field changed:
different target resource, module, ids and metadata. -/
def scenarioA_request_variant : AiRequest :=
  ⟨"read_public_cache", "other:resource", 10, "com.other.module",
   none, none, some "opaque"⟩

/-- The Scenario A context with the unused `trusted_network` flag
flipped. -/
def scenarioA_context_variant : SecurityContext :=
  ⟨"user", false, 300, false, 0⟩

/-- The `(permitted, iso_control)` pair each reachable `applied_rule`
value commits to, read off the §4.1 table; `none` for strings no rule
produces. -/
def ruleProfileOf (rule : String) : Option (Bool × String) :=
  match rule with
  | "HARD_BLOCK" => some (false, "A.9.4.1")
  | "RISK_SCORE_EXCEEDED" => some (false, "A.8.16")
  | "ACCOUNT_LOCKOUT" => some (false, "A.9.4.3")
  | "SESSION_EXPIRED" => some (false, "A.9.4.2")
  | "MFA_REQUIRED" => some (false, "A.9.4.2")
  | "INSUFFICIENT_ROLE" => some (false, "A.9.2.3")
  | "NOT_IN_WHITELIST" => some (false, "A.9.4.1")
  | "WHITELIST_APPROVED" => some (true, "A.9.4.1")
  | _ => none

/-- Every decision's `applied_rule` maps under `ruleProfileOf` to exactly
the decision's `permitted` and `iso_control` fields. -/
lemma evaluate_policy_profile (r : AiRequest) (c : SecurityContext) (t : Nat) :
    ruleProfileOf ((evaluate_policy r c t).applied_rule) =
      some ((evaluate_policy r c t).permitted, (evaluate_policy r c t).iso_control) := by
  unfold evaluate_policy
  split_ifs <;> rfl

/-- C2: a blocked action is denied as `HARD_BLOCK` with control A.9.4.1
and mandatory audit, for every context and timestamp. -/
theorem hard_block_always_denies (r : AiRequest) (c : SecurityContext)
    (t : Nat) (h : BLOCKED_ACTIONS.contains r.action = true) :
    (evaluate_policy r c t).permitted = false ∧
    (evaluate_policy r c t).applied_rule = "HARD_BLOCK" ∧
    (evaluate_policy r c t).iso_control = "A.9.4.1" ∧
    (evaluate_policy r c t).audit_required = true := by
  have h' : r.action ∈ BLOCKED_ACTIONS := by simpa using h
  simp [evaluate_policy, h']

/-- C2 witness: Scenario B — `modify_kernel_scheduler` from a super admin
with MFA and risk 0 is still denied as `HARD_BLOCK`. -/
theorem hard_block_always_denies_witness :
    BLOCKED_ACTIONS.contains scenarioB_request.action = true ∧
    (evaluate_policy scenarioB_request scenarioB_context 0).permitted = false ∧
    (evaluate_policy scenarioB_request scenarioB_context 0).applied_rule = "HARD_BLOCK" ∧
    (evaluate_policy scenarioB_request scenarioB_context 0).iso_control = "A.9.4.1" ∧
    (evaluate_policy scenarioB_request scenarioB_context 0).audit_required = true :=
  ⟨by decide, hard_block_always_denies scenarioB_request scenarioB_context 0 (by decide)⟩

/-- C5: the erasure validator permits exactly when the requester is the
data subject or an org/super admin; the action label is
`DELETE_VAULT_KEY` on permit and `DENY` on deny; the ISO control and the
GDPR article reference are fixed. -/
theorem gdpr_deletion_characterisation (u ru role : String) (t : Nat) :
    ((validate_gdpr_deletion u ru role t).permitted = true ↔
      (u = ru ∨ role = "org_admin" ∨ role = "super_admin")) ∧
    ((validate_gdpr_deletion u ru role t).permitted = true →
      (validate_gdpr_deletion u ru role t).action = "DELETE_VAULT_KEY") ∧
    ((validate_gdpr_deletion u ru role t).permitted = false →
      (validate_gdpr_deletion u ru role t).action = "DENY") ∧
    (validate_gdpr_deletion u ru role t).iso_control = "A.8.3" ∧
    (validate_gdpr_deletion u ru role t).gdpr_article = "Article 17 — Right to erasure" := by
  cases hb : (u == ru || role == "org_admin" || role == "super_admin") <;>
    simp_all [validate_gdpr_deletion, or_assoc]

/-- C5 witness: Scenario F — self-service deletion permits with
`DELETE_VAULT_KEY`; a stranger's request denies with `DENY`. -/
theorem gdpr_deletion_characterisation_witness :
    (validate_gdpr_deletion "u1" "u1" "user" 0).action = "DELETE_VAULT_KEY" ∧
    (validate_gdpr_deletion "u1" "u2" "user" 0).action = "DENY" :=
  ⟨(gdpr_deletion_characterisation "u1" "u1" "user" 0).2.1 (by decide),
   (gdpr_deletion_characterisation "u1" "u2" "user" 0).2.2.1 (by decide)⟩

/-- C6: the boundary never propagates an error — a decision is returned
for every parse outcome; an unparseable request or context yields the
fail-closed `PARSE_ERROR` decision whose reason names the parse failure,
and two successful parses hand off to the pure evaluator. -/
theorem parse_error_fail_closed (rp : Except String AiRequest)
    (cp : Except String SecurityContext) (t : Nat) :
    (∀ e, rp = Except.error e →
      validate_ai_action rp cp t =
        ⟨false, "PARSE_ERROR", "Invalid request JSON: " ++ e, "A.8.16", t, true⟩) ∧
    (∀ r e, rp = Except.ok r → cp = Except.error e →
      validate_ai_action rp cp t =
        ⟨false, "PARSE_ERROR", "Invalid context JSON: " ++ e, "A.8.16", t, true⟩) ∧
    (∀ r c, rp = Except.ok r → cp = Except.ok c →
      validate_ai_action rp cp t = evaluate_policy r c t) := by
  refine ⟨?_, ?_, ?_⟩ <;> intros <;> subst_vars <;> rfl

/-- C6 witness: concrete parse failures on either payload produce the
exact `PARSE_ERROR` decision. -/
theorem parse_error_fail_closed_witness :
    validate_ai_action (Except.error "missing field") (Except.ok scenarioA_context) 3 =
      ⟨false, "PARSE_ERROR", "Invalid request JSON: missing field", "A.8.16", 3, true⟩ ∧
    validate_ai_action (Except.ok scenarioA_request) (Except.error "bad ctx") 3 =
      ⟨false, "PARSE_ERROR", "Invalid context JSON: bad ctx", "A.8.16", 3, true⟩ :=
  ⟨(parse_error_fail_closed (Except.error "missing field") (Except.ok scenarioA_context) 3).1
      "missing field" rfl,
   (parse_error_fail_closed (Except.ok scenarioA_request) (Except.error "bad ctx") 3).2.1
      scenarioA_request "bad ctx" rfl rfl⟩

/-- C7: the evaluator is a pure function of its three arguments — equal
inputs give decisions equal in every field — and the decision's
`timestamp_ms` is exactly the caller-supplied timestamp. -/
theorem evaluate_policy_deterministic (r r' : AiRequest)
    (c c' : SecurityContext) (t t' : Nat)
    (hr : r = r') (hc : c = c') (ht : t = t') :
    evaluate_policy r c t = evaluate_policy r' c' t' ∧
    (evaluate_policy r c t).timestamp_ms = t := by
  subst hr; subst hc; subst ht
  refine ⟨rfl, ?_⟩
  unfold evaluate_policy
  split_ifs <;> rfl

/-- C7 witness: determinism and timestamp echo at the Scenario A input. -/
theorem evaluate_policy_deterministic_witness :
    evaluate_policy scenarioA_request scenarioA_context 5 =
      evaluate_policy scenarioA_request scenarioA_context 5 ∧
    (evaluate_policy scenarioA_request scenarioA_context 5).timestamp_ms = 5 :=
  evaluate_policy_deterministic scenarioA_request scenarioA_request
    scenarioA_context scenarioA_context 5 5 rfl rfl rfl

/-- C1: strict priority with first-match-wins — whenever rule `i` of the
§4.1 table matches and no lower-numbered rule does, the decision's
`(permitted, applied_rule, iso_control, audit_required)` fields are
exactly rule `i`'s outcome, so later rules never affect the output. -/
theorem evaluate_policy_first_match (r : AiRequest) (c : SecurityContext) (t : Nat)
    (i : Nat) (hlo : 1 ≤ i) (hhi : i ≤ 7)
    (hc : ruleCond i r c = true)
    (hmin : ∀ j, 1 ≤ j → j < i → ruleCond j r c = false) :
    ((evaluate_policy r c t).permitted, (evaluate_policy r c t).applied_rule,
     (evaluate_policy r c t).iso_control, (evaluate_policy r c t).audit_required)
      = ruleOutcome i r := by
  interval_cases i
  · simp only [ruleCond] at hc
    unfold evaluate_policy
    split_ifs <;> simp_all [ruleOutcome]
  · have n1 := hmin 1 (by omega) (by omega)
    simp only [ruleCond] at hc n1
    unfold evaluate_policy
    split_ifs <;> simp_all [ruleOutcome]
  · have n1 := hmin 1 (by omega) (by omega)
    have n2 := hmin 2 (by omega) (by omega)
    simp only [ruleCond] at hc n1 n2
    unfold evaluate_policy
    split_ifs <;> simp_all [ruleOutcome]
  · have n1 := hmin 1 (by omega) (by omega)
    have n2 := hmin 2 (by omega) (by omega)
    have n3 := hmin 3 (by omega) (by omega)
    simp only [ruleCond] at hc n1 n2 n3
    unfold evaluate_policy
    split_ifs <;> simp_all [ruleOutcome]
  · have n1 := hmin 1 (by omega) (by omega)
    have n2 := hmin 2 (by omega) (by omega)
    have n3 := hmin 3 (by omega) (by omega)
    have n4 := hmin 4 (by omega) (by omega)
    simp only [ruleCond] at hc n1 n2 n3 n4
    unfold evaluate_policy
    split_ifs <;> simp_all [ruleOutcome] <;> omega
  · have n1 := hmin 1 (by omega) (by omega)
    have n2 := hmin 2 (by omega) (by omega)
    have n3 := hmin 3 (by omega) (by omega)
    have n4 := hmin 4 (by omega) (by omega)
    have n5 := hmin 5 (by omega) (by omega)
    simp only [ruleCond] at hc n1 n2 n3 n4 n5
    unfold evaluate_policy
    split_ifs <;> simp_all [ruleOutcome] <;> omega
  · have n1 := hmin 1 (by omega) (by omega)
    have n2 := hmin 2 (by omega) (by omega)
    have n3 := hmin 3 (by omega) (by omega)
    have n4 := hmin 4 (by omega) (by omega)
    have n5 := hmin 5 (by omega) (by omega)
    have n6 := hmin 6 (by omega) (by omega)
    simp only [ruleCond] at hc n1 n2 n3 n4 n5 n6
    unfold evaluate_policy
    split_ifs <;> simp_all [ruleOutcome]

/-- C1 witness: a request matching both rule 1 (blocked action) and
rule 2 (risk 75) decides by rule 1. -/
theorem evaluate_policy_first_match_witness :
    ruleCond 1 twoRuleOverlap_request scenarioA_context = true ∧
    ruleCond 2 twoRuleOverlap_request scenarioA_context = true ∧
    ((evaluate_policy twoRuleOverlap_request scenarioA_context 0).permitted,
     (evaluate_policy twoRuleOverlap_request scenarioA_context 0).applied_rule,
     (evaluate_policy twoRuleOverlap_request scenarioA_context 0).iso_control,
     (evaluate_policy twoRuleOverlap_request scenarioA_context 0).audit_required)
      = ruleOutcome 1 twoRuleOverlap_request :=
  ⟨by decide, by decide,
   evaluate_policy_first_match twoRuleOverlap_request scenarioA_context 0 1
     (by decide) (by decide) (by decide)
     (fun j hj hlt => absurd hlt (by omega))⟩

/-- C3: the evaluator permits exactly when none of the seven deny rules
matches; a permit carries `WHITELIST_APPROVED`, control A.9.4.1, and
requires audit exactly when the risk score exceeds 30; Scenario A yields
an unaudited `WHITELIST_APPROVED` permit. -/
theorem whitelist_approved_characterisation :
    (∀ (r : AiRequest) (c : SecurityContext) (t : Nat),
      ((evaluate_policy r c t).permitted = true ↔
        (ruleCond 1 r c = false ∧ ruleCond 2 r c = false ∧
         ruleCond 3 r c = false ∧ ruleCond 4 r c = false ∧
         ruleCond 5 r c = false ∧ ruleCond 6 r c = false ∧
         ruleCond 7 r c = false)) ∧
      ((evaluate_policy r c t).permitted = true →
        (evaluate_policy r c t).applied_rule = "WHITELIST_APPROVED" ∧
        (evaluate_policy r c t).iso_control = "A.9.4.1" ∧
        ((evaluate_policy r c t).audit_required = true ↔ r.risk_score > 30))) ∧
    ((evaluate_policy scenarioA_request scenarioA_context 0).permitted = true ∧
     (evaluate_policy scenarioA_request scenarioA_context 0).applied_rule
       = "WHITELIST_APPROVED" ∧
     (evaluate_policy scenarioA_request scenarioA_context 0).audit_required = false) := by
  constructor
  · intro r c t
    constructor
    · unfold evaluate_policy
      split_ifs <;> simp_all [ruleCond] <;> tauto
    · unfold evaluate_policy
      split_ifs <;> simp_all
  · exact ⟨by decide, by decide, by decide⟩

/-- C3 witness: the permit characterisation applied at the Scenario A
input. -/
theorem whitelist_approved_characterisation_witness :
    (evaluate_policy scenarioA_request scenarioA_context 0).applied_rule
      = "WHITELIST_APPROVED" ∧
    (evaluate_policy scenarioA_request scenarioA_context 0).iso_control = "A.9.4.1" ∧
    ((evaluate_policy scenarioA_request scenarioA_context 0).audit_required = true ↔
      scenarioA_request.risk_score > 30) :=
  (whitelist_approved_characterisation.1 scenarioA_request scenarioA_context 0).2
    (by decide)

/-- C4 counterexample: an action absent from all four classification
sets but carrying risk score 75 is decided by rule 2, not rule 7 — the
claim's `NOT_IN_WHITELIST` applied_rule does not hold for every context
and request with an unclassified action. -/
theorem default_deny_counterexample :
    ALLOWED_READ_ACTIONS.contains unknownHighRisk_request.action = false ∧
    ALLOWED_WRITE_ACTIONS.contains unknownHighRisk_request.action = false ∧
    ALLOWED_SYSTEM_ACTIONS.contains unknownHighRisk_request.action = false ∧
    BLOCKED_ACTIONS.contains unknownHighRisk_request.action = false ∧
    (evaluate_policy unknownHighRisk_request scenarioA_context 0).applied_rule
      = "RISK_SCORE_EXCEEDED" ∧
    (evaluate_policy unknownHighRisk_request scenarioA_context 0).applied_rule
      ≠ "NOT_IN_WHITELIST" := by
  decide

/-- C4 (amended): a request whose action is absent from all four
classification sets is always denied, and the applied rule is
`NOT_IN_WHITELIST` provided no higher-priority rule fires, i.e. the risk
score is at most 50 and fewer than 5 failed attempts were recorded. -/
theorem default_deny_amended (r : AiRequest) (c : SecurityContext) (t : Nat)
    (h1 : ALLOWED_READ_ACTIONS.contains r.action = false)
    (h2 : ALLOWED_WRITE_ACTIONS.contains r.action = false)
    (h3 : ALLOWED_SYSTEM_ACTIONS.contains r.action = false)
    (h4 : BLOCKED_ACTIONS.contains r.action = false) :
    (evaluate_policy r c t).permitted = false ∧
    (r.risk_score ≤ 50 → c.failed_attempts_last_hour < 5 →
      (evaluate_policy r c t).applied_rule = "NOT_IN_WHITELIST") := by
  unfold evaluate_policy
  split_ifs <;> simp_all [MAX_RISK_SCORE, MAX_FAILED_ATTEMPTS] <;> omega

/-- C4 witness: the unknown action at risk 0 with a clean context denies
as `NOT_IN_WHITELIST`. -/
theorem default_deny_amended_witness :
    (evaluate_policy unknownLowRisk_request scenarioA_context 0).permitted = false ∧
    (evaluate_policy unknownLowRisk_request scenarioA_context 0).applied_rule
      = "NOT_IN_WHITELIST" :=
  ⟨(default_deny_amended unknownLowRisk_request scenarioA_context 0
      (by decide) (by decide) (by decide) (by decide)).1,
   (default_deny_amended unknownLowRisk_request scenarioA_context 0
      (by decide) (by decide) (by decide) (by decide)).2 (by decide) (by decide)⟩

/-- C8: across any two evaluations, equal `applied_rule` strings force
equal `permitted` flags and equal `iso_control` strings. -/
theorem applied_rule_determines_outcome (r r' : AiRequest)
    (c c' : SecurityContext) (t t' : Nat)
    (h : (evaluate_policy r c t).applied_rule = (evaluate_policy r' c' t').applied_rule) :
    (evaluate_policy r c t).permitted = (evaluate_policy r' c' t').permitted ∧
    (evaluate_policy r c t).iso_control = (evaluate_policy r' c' t').iso_control := by
  have H := evaluate_policy_profile r c t
  have H' := evaluate_policy_profile r' c' t'
  rw [h] at H
  rw [H'] at H
  simp only [Option.some.injEq, Prod.mk.injEq] at H
  exact ⟨H.1.symm, H.2.symm⟩

/-- C8 witness: two evaluations of the Scenario A input at different
timestamps share an applied rule, hence permitted flag and control. -/
theorem applied_rule_determines_outcome_witness :
    (evaluate_policy scenarioA_request scenarioA_context 0).permitted
      = (evaluate_policy scenarioA_request scenarioA_context 1).permitted ∧
    (evaluate_policy scenarioA_request scenarioA_context 0).iso_control
      = (evaluate_policy scenarioA_request scenarioA_context 1).iso_control :=
  applied_rule_determines_outcome scenarioA_request scenarioA_request
    scenarioA_context scenarioA_context 0 1 (by decide)

/-- C9: the decision depends only on the action, risk score, role, MFA
flag, session age and failed-attempt count — requests and contexts that
agree there but differ in `trusted_network`, `target_resource`,
`requesting_module`, ids or metadata evaluate identically. -/
theorem unused_fields_noninterference (r r' : AiRequest)
    (c c' : SecurityContext) (t : Nat)
    (ha : r.action = r'.action) (hrs : r.risk_score = r'.risk_score)
    (hur : c.user_role = c'.user_role) (hm : c.mfa_verified = c'.mfa_verified)
    (hs : c.session_age_seconds = c'.session_age_seconds)
    (hf : c.failed_attempts_last_hour = c'.failed_attempts_last_hour) :
    evaluate_policy r c t = evaluate_policy r' c' t := by
  obtain ⟨a, tr, rs, rm, u, o, m⟩ := r
  obtain ⟨a', tr', rs', rm', u', o', m'⟩ := r'
  obtain ⟨ro, mf, sa, nw, fa⟩ := c
  obtain ⟨ro', mf', sa', nw', fa'⟩ := c'
  dsimp only at ha hrs hur hm hs hf
  subst ha; subst hrs; subst hur; subst hm; subst hs; subst hf
  rfl

/-- C9 witness: flipping `trusted_network` and changing target resource,
module, ids and metadata leaves the Scenario A decision unchanged. -/
theorem unused_fields_noninterference_witness :
    evaluate_policy scenarioA_request scenarioA_context 0
      = evaluate_policy scenarioA_request_variant scenarioA_context_variant 0 :=
  unused_fields_noninterference scenarioA_request scenarioA_request_variant
    scenarioA_context scenarioA_context_variant 0 rfl rfl rfl rfl rfl rfl

/-- C10: whenever the evaluator permits, the action is whitelisted and
not blocked, the risk score is at most 50, fewer than 5 failed attempts
were recorded, write/system actions carry a session no older than 900
seconds, and system actions were MFA-verified by a non-"user" role. -/
theorem permit_safety_invariant (r : AiRequest) (c : SecurityContext) (t : Nat)
    (h : (evaluate_policy r c t).permitted = true) :
    (ALLOWED_READ_ACTIONS.contains r.action || ALLOWED_WRITE_ACTIONS.contains r.action
      || ALLOWED_SYSTEM_ACTIONS.contains r.action) = true ∧
    BLOCKED_ACTIONS.contains r.action = false ∧
    r.risk_score ≤ 50 ∧
    c.failed_attempts_last_hour < 5 ∧
    ((ALLOWED_WRITE_ACTIONS.contains r.action
      || ALLOWED_SYSTEM_ACTIONS.contains r.action) = true →
      c.session_age_seconds ≤ 900) ∧
    (ALLOWED_SYSTEM_ACTIONS.contains r.action = true →
      c.mfa_verified = true ∧ c.user_role ≠ "user") := by
  unfold evaluate_policy at h
  split_ifs at h <;>
    simp_all [MAX_RISK_SCORE, MAX_FAILED_ATTEMPTS, MAX_SESSION_AGE_SENSITIVE] <;>
    tauto

/-- C10 witness: the Scenario A permit satisfies the invariant. -/
theorem permit_safety_invariant_witness :
    (evaluate_policy scenarioA_request scenarioA_context 0).permitted = true ∧
    BLOCKED_ACTIONS.contains scenarioA_request.action = false ∧
    scenarioA_request.risk_score ≤ 50 :=
  ⟨by decide,
   (permit_safety_invariant scenarioA_request scenarioA_context 0 (by decide)).2.1,
   (permit_safety_invariant scenarioA_request scenarioA_context 0 (by decide)).2.2.1⟩

end InfinityPortal
